import Mathlib

/-!
Shallow embedding of `src/fraud_detector.py` (class `FraudDetector` and `main`)
from the Fraud_detection_sys repository, together with theorems settling the
frozen claims about its specification.

Modelling conventions:
* A pandas dataframe is an ordered association list of named columns, each
  column a list of cells.  A cell is a numeric value (float/int, modelled by
  `ℚ`), a string, a raw timestamp as loaded by `pd.read_csv`, a parsed
  timestamp (dtype `datetime64`, as produced by `pd.to_datetime`), or a
  missing value (`NaN`/`NaT`), modelled by `Cell.na`.
* Fallible library calls (`pd.to_datetime` on malformed text, column
  assignment with mismatched lengths, division by zero) are modelled with
  `Except String`.
* `np.log1p` is a transcendental float function; the embedding is
  parameterised by an arbitrary `log1p : ℚ → ℚ`, so every theorem proved
  below holds in particular for the real function.  `NaN` propagation
  (`np.log1p(NaN) = NaN`) is modelled explicitly.
* The scikit-learn `RandomForestClassifier` is external library code; it is
  modelled by its documented semantics: a forest is a list of decision
  trees, each leaf stores the class counts of the training samples reaching
  it, `predict_proba` averages per-tree leaf class fractions, and `predict`
  takes the argmax class (ties to class 0).
-/

namespace FraudDetection

/-- A calendar timestamp as produced by `pd.to_datetime` (a `datetime64`
value, holding the parsed date and time of day). -/
structure Ts where
  year : ℕ
  month : ℕ
  day : ℕ
  hour : ℕ
  minute : ℕ
deriving DecidableEq

/-- A raw timestamp cell as loaded by `pd.read_csv`: either text in a
parseable format (carrying the date it denotes) or malformed text on which
`pd.to_datetime` raises. -/
inductive TsRaw where
  | iso (t : Ts)
  | malformed (s : String)
deriving DecidableEq

/-- One dataframe cell: a numeric value, a string, a raw or parsed
timestamp, or a missing value (`NaN`/`NaT`). -/
inductive Cell where
  | num (q : ℚ)
  | str (s : String)
  | tsRaw (t : TsRaw)
  | ts (t : Ts)
  | na
deriving DecidableEq

/-- A pandas dataframe: an ordered list of named columns. -/
abbrev DataFrame := List (String × List Cell)

/-- Lookup of a column by name (`df[name]`), first match. -/
def getCol? : DataFrame → String → Option (List Cell)
  | [], _ => none
  | p :: rest, name => if p.1 = name then some p.2 else getCol? rest name

/-- Membership test `name in df.columns`. -/
def hasCol (df : DataFrame) (name : String) : Prop :=
  (getCol? df name).isSome

instance (df : DataFrame) (name : String) : Decidable (hasCol df name) := by
  unfold hasCol; infer_instance

/-- Column assignment `df[name] = col`: replaces the column in place when the
name exists, otherwise appends it at the end (pandas semantics). -/
def setCol : DataFrame → String → List Cell → DataFrame
  | [], name, col => [(name, col)]
  | p :: rest, name, col =>
      if p.1 = name then (name, col) :: rest else p :: setCol rest name col

/-- Row count `len(df)`: the length of the index, read off the first column
(dataframes loaded by `pd.read_csv` always have at least one column). -/
def numRows : DataFrame → ℕ
  | [] => 0
  | p :: _ => p.2.length

/-- Numeric content of a cell, `none` for anything that is not a number. -/
def cellNum? : Cell → Option ℚ
  | .num q => some q
  | _ => none

/-- Column mean as computed by `DataFrame.mean()`: the mean of the numeric
entries, skipping missing values; `none` (a `NaN` mean) when the column has
no numeric entry at all. -/
def colMean (col : List Cell) : Option ℚ :=
  let ns := col.filterMap cellNum?
  if ns.length = 0 then none else some (ns.sum / ns.length)

/-- One column of `features_df.fillna(features_df.mean())`: each missing
cell is replaced by the column mean; when the mean itself is `NaN` (column
with no numeric entry) `fillna` leaves the column untouched. -/
def fillnaCol (col : List Cell) : List Cell :=
  match colMean col with
  | none => col
  | some m => col.map (fun c => if c = Cell.na then Cell.num m else c)

/-- The statement `features_df = features_df.fillna(features_df.mean())` at
line 65 of `fraud_detector.py`. -/
def fillna (df : DataFrame) : DataFrame :=
  df.map (fun p => (p.1, fillnaCol p.2))

/-- Elementwise numeric function application (numpy ufunc semantics on a
numeric column): `NaN` maps to `NaN`. -/
def applyNum (f : ℚ → ℚ) : Cell → Cell
  | .num q => .num (f q)
  | _ => .na

/-- One cell of `pd.to_datetime(df['timestamp'])`: parseable text becomes a
`datetime64` value, missing becomes `NaT`, already-parsed values pass
through, malformed text raises.  Numeric cells (epoch interpretation) and
stray categorical strings in a timestamp column are outside the modelled
input and map to the raising branch. -/
def toDatetimeCell : Cell → Except String Cell
  | .tsRaw (.iso t) => .ok (.ts t)
  | .tsRaw (.malformed s) => .error ("Unknown datetime string format: " ++ s)
  | .ts t => .ok (.ts t)
  | .na => .ok .na
  | .num _ => .error "numeric epoch timestamps are outside the modelled input"
  | .str s => .error ("Unknown datetime string format: " ++ s)

/-- Day of week of a timestamp with pandas numbering (Monday = 0, Sunday =
6), computed by Zeller's congruence. -/
def Ts.dayofweek (t : Ts) : ℕ :=
  let y := if t.month < 3 then t.year - 1 else t.year
  let m := if t.month < 3 then t.month + 12 else t.month
  let k := y % 100
  let j := y / 100
  (t.day + 13 * (m + 1) / 5 + k + k / 4 + j / 4 + 5 * j + 5) % 7

/-- One cell of `df['timestamp'].dt.hour` (`NaT` gives `NaN`). -/
def dtHour : Cell → Cell
  | .ts t => .num t.hour
  | _ => .na

/-- One cell of `df['timestamp'].dt.dayofweek` (`NaT` gives `NaN`). -/
def dtDayofweek : Cell → Cell
  | .ts t => .num t.dayofweek
  | _ => .na

/-- One cell of `(df['timestamp'].dt.dayofweek >= 5).astype(int)`: note that
the comparison `NaN >= 5` is `False`, so a missing timestamp yields 0, not
`NaN`. -/
def dtIsWeekend : Cell → Cell
  | .ts t => .num (if 5 ≤ t.dayofweek then 1 else 0)
  | _ => .num 0

/-- One cell of `df['risk_level'].map({'low':1,'medium':2,'high':3}).fillna(1)`. -/
def riskScoreCell : Cell → Cell
  | .str s =>
      if s = "low" then .num 1
      else if s = "medium" then .num 2
      else if s = "high" then .num 3
      else .num 1
  | _ => .num 1

/-- One cell of `(df['transaction_type'] == 'online').astype(int)`. -/
def isOnlineCell : Cell → Cell
  | .str s => .num (if s = "online" then 1 else 0)
  | _ => .num 0

/-- Lines 59-62 of `fraud_detector.py`: when fewer than three feature
columns were built, add `amount_log` and `amount_squared` derived from the
`amount` feature column (or a scalar 0 broadcast when `amount` is absent). -/
def addDerived (log1p : ℚ → ℚ) (feats : DataFrame) : DataFrame :=
  if feats.length < 3 then
    let lcol :=
      match getCol? feats "amount" with
      | some col => col.map (applyNum log1p)
      | none => List.replicate (numRows feats) (Cell.num 0)
    let f1 := setCol feats "amount_log" lcol
    let scol :=
      match getCol? f1 "amount" with
      | some col => col.map (applyNum (fun q => q * q))
      | none => List.replicate (numRows f1) (Cell.num 0)
    setCol f1 "amount_squared" scol
  else feats

/-- Lines 50-57 of `fraud_detector.py`: the optional `risk_score` and
`is_online` feature columns. -/
def addRiskAndType (df1 : DataFrame) (feats : DataFrame) : DataFrame :=
  let f1 :=
    match getCol? df1 "risk_level" with
    | some col => setCol feats "risk_score" (col.map riskScoreCell)
    | none => feats
  match getCol? df1 "transaction_type" with
  | some col => setCol f1 "is_online" (col.map isOnlineCell)
  | none => f1

/-- Lines 36-62 of `FraudDetector.preprocess_data`: assembles the feature
table before missing-value imputation.  Returns the (possibly mutated)
input dataframe together with the pre-`fillna` feature table: the statement
`df['timestamp'] = pd.to_datetime(df['timestamp'])` at line 45 overwrites
the caller's timestamp column in place, which the embedding renders by
returning the updated dataframe. -/
def buildFeatures (log1p : ℚ → ℚ) (df : DataFrame) :
    Except String (DataFrame × DataFrame) :=
  let feats0 : DataFrame :=
    match getCol? df "amount" with
    | some col => setCol [] "amount" col
    | none => []
  match getCol? df "timestamp" with
  | some col =>
      match col.mapM toDatetimeCell with
      | .error e => .error e
      | .ok parsed =>
          let df1 := setCol df "timestamp" parsed
          let ftime :=
            setCol (setCol (setCol feats0 "time_hour" (parsed.map dtHour))
              "day_of_week" (parsed.map dtDayofweek))
              "is_weekend" (parsed.map dtIsWeekend)
          .ok (df1, addDerived log1p (addRiskAndType df1 ftime))
  | none => .ok (df, addDerived log1p (addRiskAndType df feats0))

/-- `FraudDetector.preprocess_data` (lines 34-73): returns the possibly
mutated input dataframe, the imputed feature table, and the label column
when `is_fraud` is present.  The update of `self.feature_columns` (line 68)
is not modelled; no claim depends on it. -/
def preprocess_data (log1p : ℚ → ℚ) (df : DataFrame) :
    Except String (DataFrame × DataFrame × Option (List Cell)) :=
  match buildFeatures log1p df with
  | .error e => .error e
  | .ok (df1, feats) => .ok (df1, fillna feats, getCol? df1 "is_fraud")

/-- A decision tree of the fitted `RandomForestClassifier`: an internal node
routes on one feature against a threshold (`x[j] <= th` goes left), a leaf
stores the number of fraud training samples and the total number of
training samples that reached it. -/
inductive DTree where
  | leaf (nFraud nTot : ℕ)
  | node (j : ℕ) (th : ℚ) (l r : DTree)
deriving DecidableEq

/-- Per-tree fraud probability: the fraction of fraud samples at the leaf
the row is routed to (scikit-learn per-tree `predict_proba`). -/
def DTree.proba : DTree → List ℚ → ℚ
  | .leaf nFraud nTot, _ => if nTot = 0 then 0 else (nFraud : ℚ) / (nTot : ℚ)
  | .node j th l r, x => if x.getD j 0 ≤ th then l.proba x else r.proba x

/-- Well-formedness of a fitted tree: every leaf's fraud count is at most
its total sample count (an invariant of fitting, where both numbers count
training samples at the leaf). -/
def DTree.wfb : DTree → Bool
  | .leaf nFraud nTot => decide (nFraud ≤ nTot)
  | .node _ _ l r => l.wfb && r.wfb

/-- A fitted random forest: the list of its decision trees
(`n_estimators = 100` in the source, so the list is nonempty). -/
abbrev Forest := List DTree

/-- Forest fraud probability `predict_proba(X)[:, 1]`: the average of the
per-tree probabilities. -/
def forestProba (f : Forest) (x : List ℚ) : ℚ :=
  if f.length = 0 then 0
  else (f.map (fun t => t.proba x)).sum / (f.length : ℚ)

/-- Forest class prediction `predict(X)`: argmax over the two classes of the
averaged probabilities, ties resolved to the first class 0. -/
def forestPredict (f : Forest) (x : List ℚ) : ℕ :=
  if 1 / 2 < forestProba f x then 1 else 0

/-- The mutable state of a `FraudDetector` instance (constructor at lines
20-22). -/
structure FraudDetector where
  model : Option Forest := none
  feature_columns : List String := ["amount"]

/-- A persisted model store: path to saved forest, modelling the joblib
files on disk. -/
abbrev FS := List (String × Forest)

/-- `FraudDetector.predict_fraud` (lines 104-112): raises when no model has
been trained or loaded, otherwise returns per-row predicted labels and
fraud probabilities. -/
def predict_fraud (d : FraudDetector) (X : List (List ℚ)) :
    Except String (List ℕ × List ℚ) :=
  match d.model with
  | none => .error "Model not trained yet!"
  | some f => .ok (X.map (forestPredict f), X.map (forestProba f))

/-- `FraudDetector.train_model` (lines 75-102): splits, fits a 100-tree
random forest and stores it in `self.model`.  The library fitting procedure
(`train_test_split` followed by `RandomForestClassifier.fit`) is external
code, abstracted as the parameter `fit`; its result is characterised in the
theorems by the well-formedness invariant `DTree.wfb`. -/
def train_model (fit : List (List ℚ) → List Cell → Forest)
    (d : FraudDetector) (X : List (List ℚ)) (y : List Cell) : FraudDetector :=
  { d with model := some (fit X y) }

/-- `FraudDetector.save_model` (lines 114-118): persists the model when one
exists. -/
def save_model (fs : FS) (path : String) (d : FraudDetector) : FS :=
  match d.model with
  | some m => (path, m) :: fs
  | none => fs

/-- `FraudDetector.load_model` (lines 120-126): loads the persisted model
when the file exists; when the path does not exist it only prints an error
and leaves `self.model` unchanged. -/
def load_model (fs : FS) (path : String) (d : FraudDetector) : FraudDetector :=
  match fs.lookup path with
  | some m => { d with model := some m }
  | none => d

/-- Lines 216-222 of `main`: with labels present the detector trains a
fresh model and saves it; with labels absent it loads the persisted
pretrained model instead. -/
def mainTrainOrLoad (fit : List (List ℚ) → List Cell → Forest) (fs : FS)
    (X : List (List ℚ)) (y : Option (List Cell)) : FraudDetector × FS :=
  let detector : FraudDetector := {}
  match y with
  | some yl =>
      let d := train_model fit detector X yl
      (d, save_model fs "models/fraud_model.joblib" d)
  | none => (load_model fs "models/fraud_model.joblib" detector, fs)

/-- A risk tier of the report. -/
inductive Tier where
  | low
  | medium
  | high
deriving DecidableEq

/-- Tier assignment of `pd.cut(probabilities, bins=[0, 0.3, 0.7, 1.0],
labels=['Low', 'Medium', 'High'])` at lines 134-138: `pd.cut` uses
right-closed, left-open intervals (`right=True`, `include_lowest` absent),
so the bins are (0, 0.3], (0.3, 0.7], (0.7, 1.0] and any probability
outside (0, 1] falls in no bin (`NaN` tier). -/
def riskTier (p : ℚ) : Option Tier :=
  if 0 < p ∧ p ≤ 3 / 10 then some .low
  else if 3 / 10 < p ∧ p ≤ 7 / 10 then some .medium
  else if 7 / 10 < p ∧ p ≤ 1 then some .high
  else none

/-- The `risk_level` cell written into the detailed report for one
probability: the tier label, or a missing value for an unbinned
probability. -/
def tierCell (p : ℚ) : Cell :=
  match riskTier p with
  | some .low => .str "Low"
  | some .medium => .str "Medium"
  | some .high => .str "High"
  | none => .na

/-- Python's builtin `round` to an integer: round half to even on exact
rational values (the idealised semantics of float rounding). -/
def pyRound (x : ℚ) : ℤ :=
  if x - (⌊x⌋ : ℚ) < 1 / 2 then ⌊x⌋
  else if 1 / 2 < x - (⌊x⌋ : ℚ) then ⌊x⌋ + 1
  else if ⌊x⌋ % 2 = 0 then ⌊x⌋ else ⌊x⌋ + 1

/-- `round(x, 2)`: rounding to two decimal places. -/
def round2 (x : ℚ) : ℚ :=
  (pyRound (x * 100) : ℚ) / 100

/-- The JSON summary object written by `generate_report` (lines 146-154).
The wall-clock `timestamp` field (`datetime.now()`) is outside a pure
embedding and is omitted; no claim mentions it. -/
structure Summary where
  total_transactions : ℕ
  fraud_detected : ℕ
  fraud_rate_percent : ℚ
  high_risk_transactions : ℕ
  medium_risk_transactions : ℕ
  low_risk_transactions : ℕ
deriving DecidableEq

/-- `FraudDetector.generate_report` (lines 128-175): builds the detailed
report table on a copy of the input dataframe and computes the summary.
Column assignment with a length different from the index raises
(`ValueError`); with an empty batch `sum(predictions)` is the plain integer
0 and `fraud_detected / total_transactions` raises `ZeroDivisionError`.
The file writes (detailed CSV and summary JSON) are I/O and are rendered by
returning the report table and the summary. -/
def generate_report (df : DataFrame) (predictions : List ℕ)
    (probabilities : List ℚ) : Except String (DataFrame × Summary) :=
  if predictions.length = numRows df ∧ probabilities.length = numRows df then
    let riskCol := probabilities.map tierCell
    let df_report :=
      setCol (setCol (setCol df "predicted_fraud"
        (predictions.map (fun n => Cell.num n)))
        "fraud_probability" (probabilities.map Cell.num))
        "risk_level" riskCol
    if numRows df = 0 then .error "ZeroDivisionError: division by zero"
    else
      .ok (df_report,
        { total_transactions := numRows df
          fraud_detected := predictions.sum
          fraud_rate_percent :=
            round2 ((predictions.sum : ℚ) / (numRows df : ℚ) * 100)
          high_risk_transactions := riskCol.count (Cell.str "High")
          medium_risk_transactions := riskCol.count (Cell.str "Medium")
          low_risk_transactions := riskCol.count (Cell.str "Low") })
  else .error "Length of values does not match length of index"

/-- Does any column of the table contain a missing value? -/
def tableHasNa (df : DataFrame) : Bool :=
  df.any (fun p => p.2.contains Cell.na)

/-- Concrete input: a one-row table whose `amount` value is missing. -/
def dfAllNa : DataFrame := [("amount", [Cell.na])]

/-- The feature table `preprocess_data` produces on `dfAllNa`: every
column is entirely missing and `fillna` leaves it so. -/
def featsAllNa : DataFrame :=
  [("amount", [Cell.na]), ("amount_log", [Cell.na]),
   ("amount_squared", [Cell.na])]

/-- Concrete input: a one-row table with a raw (unparsed) timestamp. -/
def dfTsIn : DataFrame :=
  [("timestamp", [Cell.tsRaw (TsRaw.iso ⟨2024, 1, 1, 12, 0⟩)]),
   ("amount", [Cell.num 5])]

/-- The same table after `preprocess_data`: the timestamp column has been
overwritten in place with the parsed `datetime64` value. -/
def dfTsOut : DataFrame :=
  [("timestamp", [Cell.ts ⟨2024, 1, 1, 12, 0⟩]), ("amount", [Cell.num 5])]

/-- The feature table `preprocess_data` produces on `dfTsIn`
(2024-01-01 is a Monday: `dayofweek = 0`, not a weekend). -/
def featsTs : DataFrame :=
  [("amount", [Cell.num 5]), ("time_hour", [Cell.num 12]),
   ("day_of_week", [Cell.num 0]), ("is_weekend", [Cell.num 0])]

/-- Concrete input: a two-row labelled table. -/
def dfTwo : DataFrame :=
  [("amount", [Cell.num 100, Cell.num 5]),
   ("is_fraud", [Cell.num 1, Cell.num 0])]

/-- Is a cell numeric or missing?  Columns produced by `pd.read_csv` for a
numeric CSV column contain exactly such cells. -/
def numOrNa : Cell → Bool
  | .num _ => true
  | .na => true
  | _ => false

theorem getCol?_setCol_self (df : DataFrame) (name : String)
    (col : List Cell) : getCol? (setCol df name col) name = some col := by
  induction df with
  | nil => simp [setCol, getCol?]
  | cons p rest ih =>
      by_cases h : p.1 = name
      · simp [setCol, h, getCol?]
      · simp [setCol, h, getCol?, ih]

theorem getCol?_setCol_ne (df : DataFrame) (name m : String)
    (col : List Cell) (h : m ≠ name) :
    getCol? (setCol df name col) m = getCol? df m := by
  induction df with
  | nil => simp [setCol, getCol?, Ne.symm h]
  | cons p rest ih =>
      by_cases hp : p.1 = name
      · simp [setCol, hp, getCol?, Ne.symm h]
      · simp [setCol, hp, getCol?, ih]

theorem hasCol_iff (df : DataFrame) (name : String) :
    hasCol df name ↔ ∃ c, getCol? df name = some c := by
  unfold hasCol
  exact Option.isSome_iff_exists

theorem fillna_fst (df : DataFrame) :
    (fillna df).map Prod.fst = df.map Prod.fst := by
  simp [fillna]

/-- C3: `predict_fraud` fails with an error if and only if it is invoked
while the detector's model is still `None` (no model trained or loaded);
`load_model` on a nonexistent path leaves the model unchanged, so a
subsequent `predict_fraud` still fails. -/
theorem predict_fraud_error_iff_no_model :
    (∀ (d : FraudDetector) (X : List (List ℚ)),
        predict_fraud d X = .error "Model not trained yet!" ↔ d.model = none)
    ∧ (∀ (d : FraudDetector) (X : List (List ℚ)),
        (∃ r, predict_fraud d X = .ok r) ↔ d.model ≠ none)
    ∧ (∀ (fs : FS) (path : String) (d : FraudDetector),
        fs.lookup path = none → (load_model fs path d).model = d.model)
    ∧ (∀ (fs : FS) (path : String) (X : List (List ℚ)),
        fs.lookup path = none →
          predict_fraud (load_model fs path {}) X
            = .error "Model not trained yet!") := by
  refine ⟨?_, ?_, ?_, ?_⟩
  · intro d X
    cases hm : d.model <;> simp [predict_fraud, hm]
  · intro d X
    cases hm : d.model <;> simp [predict_fraud, hm]
  · intro fs path d h
    simp [load_model, h]
  · intro fs path X h
    simp [load_model, h, predict_fraud]

/-- Witness for C3 at a concrete input: the empty model store has no file
at the model path, and predicting after the failed load raises. -/
theorem predict_fraud_error_iff_no_model_witness :
    (([] : FS).lookup "models/fraud_model.joblib" = none)
    ∧ predict_fraud (load_model [] "models/fraud_model.joblib" {}) []
        = .error "Model not trained yet!" :=
  ⟨rfl, predict_fraud_error_iff_no_model.2.2.2 []
    "models/fraud_model.joblib" [] rfl⟩

theorem riskTier_low_iff (p : ℚ) :
    riskTier p = some Tier.low ↔ 0 < p ∧ p ≤ 3 / 10 := by
  unfold riskTier
  split_ifs with h1 h2 h3
  · exact iff_of_true rfl h1
  · exact iff_of_false (by simp) h1
  · exact iff_of_false (by simp) h1
  · exact iff_of_false (by simp) h1

theorem riskTier_med_iff (p : ℚ) :
    riskTier p = some Tier.medium ↔ 3 / 10 < p ∧ p ≤ 7 / 10 := by
  unfold riskTier
  split_ifs with h1 h2 h3
  · exact iff_of_false (by simp)
      (by rintro ⟨ha, hb⟩; linarith [h1.2])
  · exact iff_of_true rfl h2
  · exact iff_of_false (by simp) h2
  · exact iff_of_false (by simp) h2

theorem riskTier_high_iff (p : ℚ) :
    riskTier p = some Tier.high ↔ 7 / 10 < p ∧ p ≤ 1 := by
  unfold riskTier
  split_ifs with h1 h2 h3
  · exact iff_of_false (by simp)
      (by rintro ⟨ha, hb⟩; linarith [h1.2])
  · exact iff_of_false (by simp)
      (by rintro ⟨ha, hb⟩; linarith [h2.2])
  · exact iff_of_true rfl h3
  · exact iff_of_false (by simp) h3

theorem riskTier_isSome_iff (p : ℚ) :
    (riskTier p).isSome ↔ 0 < p ∧ p ≤ 1 := by
  unfold riskTier
  split_ifs with h1 h2 h3
  · exact iff_of_true rfl ⟨h1.1, by linarith [h1.2]⟩
  · exact iff_of_true rfl ⟨by linarith [h2.1], by linarith [h2.2]⟩
  · exact iff_of_true rfl ⟨by linarith [h3.1], h3.2⟩
  · refine iff_of_false (by simp) ?_
    push_neg at h1 h2 h3
    rintro ⟨hp0, hp1⟩
    linarith [h3 (h2 (h1 hp0))]

/-- C1 (amended): `pd.cut` with bins `[0, 0.3, 0.7, 1.0]` assigns tiers by
left-open, right-closed intervals: 0 < p ≤ 0.3 gives Low, 0.3 < p ≤ 0.7
gives Medium, 0.7 < p ≤ 1 gives High; in particular p = 0.9 gives High,
p = 0.5 gives Medium, p = 0.1 gives Low, the boundary p = 0.3 falls in the
Low tier, and p = 0 falls in no tier. -/
theorem riskTier_thresholds :
    (∀ p : ℚ, riskTier p = some Tier.low ↔ 0 < p ∧ p ≤ 3 / 10)
    ∧ (∀ p : ℚ, riskTier p = some Tier.medium ↔ 3 / 10 < p ∧ p ≤ 7 / 10)
    ∧ (∀ p : ℚ, riskTier p = some Tier.high ↔ 7 / 10 < p ∧ p ≤ 1)
    ∧ riskTier (9 / 10) = some Tier.high
    ∧ riskTier (1 / 2) = some Tier.medium
    ∧ riskTier (1 / 10) = some Tier.low
    ∧ riskTier (3 / 10) = some Tier.low
    ∧ riskTier 0 = none :=
  ⟨riskTier_low_iff, riskTier_med_iff, riskTier_high_iff,
   by norm_num [riskTier], by norm_num [riskTier], by norm_num [riskTier],
   by norm_num [riskTier], by norm_num [riskTier]⟩

/-- C1 counterexample: the boundary probability 0.3 is assigned the Low
tier by `pd.cut` (interval (0, 0.3]), not the Medium tier the claim
states. -/
theorem riskTier_boundary_counterexample :
    riskTier (3 / 10) = some Tier.low
      ∧ riskTier (3 / 10) ≠ some Tier.medium := by
  have h1 : riskTier (3 / 10) = some Tier.low := by norm_num [riskTier]
  exact ⟨h1, by rw [h1]; decide⟩

theorem sum_eq_count_one (l : List ℕ) (h : ∀ x ∈ l, x = 0 ∨ x = 1) :
    l.sum = l.count 1 := by
  induction l with
  | nil => rfl
  | cons a t ih =>
      have ht := ih (fun x hx => h x (by simp [hx]))
      rcases h a (by simp) with ha | ha <;>
        · subst ha
          simp [List.count_cons, ht] <;> omega

theorem sum_le_length (l : List ℕ) (h : ∀ x ∈ l, x ≤ 1) :
    l.sum ≤ l.length := by
  induction l with
  | nil => simp
  | cons a t ih =>
      have ha := h a (by simp)
      have ht := ih (fun x hx => h x (by simp [hx]))
      simp only [List.sum_cons, List.length_cons]
      omega

theorem tierCell_counts (probas : List ℚ) :
    (probas.map tierCell).count (Cell.str "High")
      + (probas.map tierCell).count (Cell.str "Medium")
      + (probas.map tierCell).count (Cell.str "Low")
      = probas.countP (fun p => (riskTier p).isSome) := by
  induction probas with
  | nil => rfl
  | cons p t ih =>
      simp only [List.map_cons, List.count_cons, List.countP_cons]
      cases hr : riskTier p with
      | none => simp [tierCell, hr]; omega
      | some tr => cases tr <;> simp [tierCell, hr] <;> omega

theorem pyRound_floor_cases (x : ℚ) :
    pyRound x = ⌊x⌋ ∨ pyRound x = ⌊x⌋ + 1 := by
  unfold pyRound
  split_ifs <;> simp

theorem pyRound_nonneg (x : ℚ) (h : 0 ≤ x) : 0 ≤ pyRound x := by
  have hf : 0 ≤ ⌊x⌋ := Int.floor_nonneg.mpr h
  rcases pyRound_floor_cases x with hc | hc <;> omega

theorem pyRound_le (x : ℚ) (N : ℤ) (h : x ≤ (N : ℚ)) : pyRound x ≤ N := by
  have hfl : ⌊x⌋ ≤ N := by
    have := Int.floor_le_floor h
    simpa using this
  have key : 1 / 2 ≤ x - (⌊x⌋ : ℚ) → ⌊x⌋ + 1 ≤ N := by
    intro hhalf
    by_contra hc
    push_neg at hc
    have hN : N ≤ ⌊x⌋ := by omega
    have hcast : (N : ℚ) ≤ (⌊x⌋ : ℚ) := by exact_mod_cast hN
    linarith
  unfold pyRound
  split_ifs with hA hB hC
  · exact hfl
  · exact key (by linarith)
  · exact hfl
  · exact key (by linarith)

theorem round2_nonneg (x : ℚ) (h : 0 ≤ x) : 0 ≤ round2 x := by
  unfold round2
  have : (0 : ℚ) ≤ (pyRound (x * 100) : ℚ) := by
    exact_mod_cast pyRound_nonneg (x * 100) (by linarith)
  positivity

theorem round2_le_100 (x : ℚ) (h : x ≤ 100) : round2 x ≤ 100 := by
  unfold round2
  have h1 : pyRound (x * 100) ≤ (10000 : ℤ) := by
    apply pyRound_le
    push_cast
    linarith
  have h2 : ((pyRound (x * 100)) : ℚ) ≤ 10000 := by exact_mod_cast h1
  linarith

/-- C2: for every batch accepted by `generate_report`, the summary field
`fraud_rate_percent` equals `fraud_detected / total_transactions * 100`
rounded to two decimals, where `total_transactions` is the number of input
rows and `fraud_detected` is the number of rows with predicted label 1. -/
theorem generate_report_fraud_rate (df : DataFrame) (preds : List ℕ)
    (probas : List ℚ) (hl : preds.length = numRows df)
    (hp : probas.length = numRows df) (h0 : numRows df ≠ 0)
    (hbin : ∀ x ∈ preds, x = 0 ∨ x = 1) :
    ∃ dfr s, generate_report df preds probas = .ok (dfr, s)
      ∧ s.total_transactions = numRows df
      ∧ s.fraud_detected = preds.count 1
      ∧ s.fraud_rate_percent
          = round2 ((preds.count 1 : ℚ) / (numRows df : ℚ) * 100) := by
  have hsum := sum_eq_count_one preds hbin
  unfold generate_report
  rw [if_pos (And.intro hl hp), if_neg h0]
  exact ⟨_, _, rfl, rfl, hsum, by rw [hsum]⟩

/-- Witness for C2 at a concrete two-row batch with one positive label. -/
theorem generate_report_fraud_rate_witness :
    ([1, 0].length = numRows dfTwo ∧ numRows dfTwo ≠ 0
        ∧ ∀ x ∈ [1, 0], x = 0 ∨ x = 1)
    ∧ ∃ dfr s,
        generate_report dfTwo [1, 0] [mkRat 9 10, mkRat 1 10] = .ok (dfr, s)
        ∧ s.total_transactions = numRows dfTwo
        ∧ s.fraud_detected = [1, 0].count 1
        ∧ s.fraud_rate_percent
            = round2 (([1, 0].count 1 : ℚ) / (numRows dfTwo : ℚ) * 100) :=
  ⟨⟨rfl, by decide, by decide⟩,
   generate_report_fraud_rate dfTwo [1, 0] [mkRat 9 10, mkRat 1 10]
     rfl rfl (by decide) (by decide)⟩

/-- C10: with matching row counts, a non-empty batch yields a summary with
`fraud_detected` at most `total_transactions` and a fraud rate between 0
and 100, while an empty batch makes the fraud-rate computation divide by
zero and `generate_report` fails instead of returning a summary. -/
theorem generate_report_bounds_and_empty (df : DataFrame) (preds : List ℕ)
    (probas : List ℚ) (hl : preds.length = numRows df)
    (hp : probas.length = numRows df) (hbin : ∀ x ∈ preds, x ≤ 1) :
    (numRows df ≠ 0 →
      ∃ dfr s, generate_report df preds probas = .ok (dfr, s)
        ∧ s.fraud_detected ≤ s.total_transactions
        ∧ 0 ≤ s.fraud_rate_percent ∧ s.fraud_rate_percent ≤ 100)
    ∧ (numRows df = 0 →
        generate_report df preds probas
          = .error "ZeroDivisionError: division by zero") := by
  constructor
  · intro h0
    have hle : preds.sum ≤ numRows df := hl ▸ sum_le_length preds hbin
    have hpos : (0 : ℚ) < (numRows df : ℚ) := by
      exact_mod_cast Nat.pos_of_ne_zero h0
    have hrate0 : (0 : ℚ) ≤ (preds.sum : ℚ) / (numRows df : ℚ) * 100 := by
      positivity
    have hrate100 : (preds.sum : ℚ) / (numRows df : ℚ) * 100 ≤ 100 := by
      have hq : (preds.sum : ℚ) ≤ (numRows df : ℚ) := by exact_mod_cast hle
      have : (preds.sum : ℚ) / (numRows df : ℚ) ≤ 1 :=
        (div_le_one hpos).mpr hq
      linarith
    unfold generate_report
    rw [if_pos (And.intro hl hp), if_neg h0]
    exact ⟨_, _, rfl, hle, round2_nonneg _ hrate0, round2_le_100 _ hrate100⟩
  · intro h0
    unfold generate_report
    rw [if_pos (And.intro hl hp), if_pos h0]

/-- Witness for C10 at a concrete one-row batch and at the empty batch. -/
theorem generate_report_bounds_and_empty_witness :
    ((numRows dfTwo ≠ 0 →
        ∃ dfr s, generate_report dfTwo [1, 0] [mkRat 9 10, mkRat 1 10]
            = .ok (dfr, s)
          ∧ s.fraud_detected ≤ s.total_transactions
          ∧ 0 ≤ s.fraud_rate_percent ∧ s.fraud_rate_percent ≤ 100)
      ∧ (numRows dfTwo = 0 →
          generate_report dfTwo [1, 0] [mkRat 9 10, mkRat 1 10]
            = .error "ZeroDivisionError: division by zero"))
    ∧ generate_report [("amount", ([] : List Cell))] [] []
        = .error "ZeroDivisionError: division by zero" :=
  ⟨generate_report_bounds_and_empty dfTwo [1, 0] [mkRat 9 10, mkRat 1 10]
     rfl rfl (by decide),
   (generate_report_bounds_and_empty [("amount", ([] : List Cell))] [] []
     rfl rfl (by decide)).2 rfl⟩

/-- C9: a probability is assigned a tier exactly when it lies in the
half-open interval (0, 1]; with probabilities at most 1 (as produced by
`predict_proba`), the three tier counts of the summary add up to the
number of rows with probability strictly greater than 0, and at a batch
containing a zero probability the sum is strictly below
`total_transactions`. -/
theorem generate_report_tier_partition (df : DataFrame) (preds : List ℕ)
    (probas : List ℚ) (hl : preds.length = numRows df)
    (hp : probas.length = numRows df) (h0 : numRows df ≠ 0)
    (hle : ∀ p ∈ probas, p ≤ 1) :
    (∀ p : ℚ, (riskTier p).isSome ↔ 0 < p ∧ p ≤ 1)
    ∧ (∃ dfr s, generate_report df preds probas = .ok (dfr, s)
        ∧ s.high_risk_transactions + s.medium_risk_transactions
            + s.low_risk_transactions
          = probas.countP (fun p => decide (0 < p))
        ∧ s.high_risk_transactions + s.medium_risk_transactions
            + s.low_risk_transactions ≤ s.total_transactions)
    ∧ (∃ dfr0 s0,
        generate_report [("amount", [Cell.num 1])] [0] [0] = .ok (dfr0, s0)
        ∧ s0.high_risk_transactions + s0.medium_risk_transactions
            + s0.low_risk_transactions < s0.total_transactions) := by
  have hcong : probas.countP (fun p => (riskTier p).isSome)
      = probas.countP (fun p => decide (0 < p)) := by
    apply List.countP_congr
    intro p hpmem
    by_cases hpos : 0 < p
    · simp [hpos, riskTier_isSome_iff, hle p hpmem]
    · simp [hpos, riskTier_isSome_iff]
  have hcount := tierCell_counts probas
  have hcle : probas.countP (fun p => decide (0 < p)) ≤ numRows df := by
    calc probas.countP (fun p => decide (0 < p)) ≤ probas.length :=
          List.countP_le_length _
      _ = numRows df := hp
  refine ⟨riskTier_isSome_iff, ?_, ?_⟩
  · unfold generate_report
    rw [if_pos (And.intro hl hp), if_neg h0]
    exact ⟨_, _, rfl, by rw [hcount, hcong], by rw [hcount, hcong]; exact hcle⟩
  · have hcell : tierCell 0 = Cell.na := by norm_num [tierCell, riskTier]
    unfold generate_report
    rw [if_pos (by constructor <;> rfl), if_neg (by decide)]
    refine ⟨_, _, rfl, ?_⟩
    simp [hcell, numRows]

theorem buildFeatures_df_shape (f : ℚ → ℚ) (df dfb featsb : DataFrame)
    (hb : buildFeatures f df = .ok (dfb, featsb)) :
    (¬hasCol df "timestamp" → dfb = df)
    ∧ (∀ name, name ≠ "timestamp" → getCol? dfb name = getCol? df name) := by
  unfold buildFeatures at hb
  cases hts : getCol? df "timestamp" with
  | none =>
      rw [hts] at hb
      simp only [Except.ok.injEq, Prod.mk.injEq] at hb
      obtain ⟨hb1, hb2⟩ := hb
      subst hb1
      exact ⟨fun _ => rfl, fun name _ => rfl⟩
  | some col =>
      rw [hts] at hb
      dsimp only at hb
      cases hm : col.mapM toDatetimeCell with
      | error e =>
          rw [hm] at hb
          cases hb
      | ok parsed =>
          rw [hm] at hb
          simp only [Except.ok.injEq, Prod.mk.injEq] at hb
          obtain ⟨hb1, hb2⟩ := hb
          subst hb1
          constructor
          · intro hnc
            exact absurd (by simp [hasCol, hts]) hnc
          · intro name hname
            exact getCol?_setCol_ne df "timestamp" name parsed hname

theorem preprocess_data_inv (f : ℚ → ℚ) (df df1 feats : DataFrame)
    (y : Option (List Cell))
    (h : preprocess_data f df = .ok (df1, feats, y)) :
    ∃ pre, buildFeatures f df = .ok (df1, pre) ∧ feats = fillna pre
      ∧ y = getCol? df1 "is_fraud" := by
  unfold preprocess_data at h
  cases hb : buildFeatures f df with
  | error e => rw [hb] at h; cases h
  | ok pr =>
      obtain ⟨dfb, featsb⟩ := pr
      rw [hb] at h
      simp only [Except.ok.injEq, Prod.mk.injEq] at h
      obtain ⟨hdf, hfeats, hy⟩ := h
      subst hdf
      exact ⟨featsb, rfl, hfeats.symm, hy.symm⟩

theorem preprocess_data_shape (f : ℚ → ℚ) (df df1 feats : DataFrame)
    (y : Option (List Cell))
    (h : preprocess_data f df = .ok (df1, feats, y)) :
    y = getCol? df1 "is_fraud"
    ∧ (¬hasCol df "timestamp" → df1 = df)
    ∧ (∀ name, name ≠ "timestamp" → getCol? df1 name = getCol? df name) := by
  obtain ⟨pre, hb, hf, hy⟩ := preprocess_data_inv f df df1 feats y h
  obtain ⟨h1, h2⟩ := buildFeatures_df_shape f df df1 pre hb
  exact ⟨hy, h1, h2⟩

theorem fillnaCol_mean_some (col : List Cell) (m : ℚ)
    (h : colMean col = some m) :
    fillnaCol col = col.map (fun c => if c = Cell.na then Cell.num m else c)
    ∧ Cell.na ∉ fillnaCol col := by
  have heq : fillnaCol col
      = col.map (fun c => if c = Cell.na then Cell.num m else c) := by
    unfold fillnaCol
    rw [h]
  refine ⟨heq, ?_⟩
  rw [heq]
  intro hmem
  rcases List.mem_map.mp hmem with ⟨c, hc, hceq⟩
  by_cases hna : c = Cell.na
  · rw [if_pos hna] at hceq
    cases hceq
  · rw [if_neg hna] at hceq
    exact hna hceq

theorem fillnaCol_mean_none (col : List Cell) (h : colMean col = none) :
    fillnaCol col = col := by
  unfold fillnaCol
  rw [h]

/-- C4: `preprocess_data` returns a label vector exactly when the input has
an `is_fraud` column, and `main` branches on that result: with labels
present it trains a fresh model and saves it, with labels absent it
silently loads the persisted pretrained model instead of raising. -/
theorem preprocess_labels_and_main_branch (f : ℚ → ℚ)
    (df df1 feats : DataFrame) (y : Option (List Cell))
    (h : preprocess_data f df = .ok (df1, feats, y)) :
    (y.isSome ↔ hasCol df "is_fraud")
    ∧ (∀ fit fs Xr yl, y = some yl →
        mainTrainOrLoad fit fs Xr y
          = ({ model := some (fit Xr yl), feature_columns := ["amount"] },
             ("models/fraud_model.joblib", fit Xr yl) :: fs))
    ∧ (y = none → ∀ fit fs Xr,
        mainTrainOrLoad fit fs Xr y
          = (load_model fs "models/fraud_model.joblib" {}, fs)) := by
  obtain ⟨hy, hts, hother⟩ := preprocess_data_shape f df df1 feats y h
  refine ⟨?_, ?_, ?_⟩
  · unfold hasCol
    rw [hy, hother "is_fraud" (by decide)]
  · intro fit fs Xr yl hyl
    subst hyl
    simp [mainTrainOrLoad, train_model, save_model]
  · intro hyn fit fs Xr
    subst hyn
    simp [mainTrainOrLoad]

/-- Witness for C4 at a concrete unlabelled table: `preprocess_data`
returns no labels and the pipeline takes the load branch. -/
theorem preprocess_labels_and_main_branch_witness :
    preprocess_data (fun q => q) dfTsIn = .ok (dfTsOut, featsTs, none)
    ∧ (((none : Option (List Cell)).isSome ↔ hasCol dfTsIn "is_fraud")
      ∧ (∀ fit fs Xr yl, (none : Option (List Cell)) = some yl →
          mainTrainOrLoad fit fs Xr none
            = ({ model := some (fit Xr yl), feature_columns := ["amount"] },
               ("models/fraud_model.joblib", fit Xr yl) :: fs))
      ∧ ((none : Option (List Cell)) = none → ∀ fit fs Xr,
          mainTrainOrLoad fit fs Xr none
            = (load_model fs "models/fraud_model.joblib" {}, fs))) :=
  ⟨rfl, preprocess_labels_and_main_branch (fun q => q) dfTsIn dfTsOut
    featsTs none rfl⟩

/-- C5 (amended): the feature table is the pre-fill feature table imputed
columnwise: every cell missing in a column whose mean exists (at least one
numeric entry) is replaced by that column's own mean, and such a column
ends with no missing value; a column with no numeric entry (for example an
entirely missing one) is left untouched by `fillna`, so the feature table
can still contain missing values. -/
theorem preprocess_imputation (f : ℚ → ℚ) (df df1 feats : DataFrame)
    (y : Option (List Cell))
    (h : preprocess_data f df = .ok (df1, feats, y)) :
    ∃ pre, buildFeatures f df = .ok (df1, pre) ∧ feats = fillna pre
      ∧ ∀ p ∈ pre,
          (∀ m, colMean p.2 = some m →
            fillnaCol p.2
                = p.2.map (fun c => if c = Cell.na then Cell.num m else c)
              ∧ Cell.na ∉ fillnaCol p.2)
          ∧ (colMean p.2 = none → fillnaCol p.2 = p.2) := by
  obtain ⟨pre, hb, hf, hy⟩ := preprocess_data_inv f df df1 feats y h
  exact ⟨pre, hb, hf, fun p _ =>
    ⟨fun m hm => fillnaCol_mean_some p.2 m hm,
     fun hm => fillnaCol_mean_none p.2 hm⟩⟩

/-- Witness for C5 at a concrete table: the imputation dichotomy holds for
the feature table built from `dfAllNa`. -/
theorem preprocess_imputation_witness :
    preprocess_data (fun q => q) dfAllNa = .ok (dfAllNa, featsAllNa, none)
    ∧ ∃ pre, buildFeatures (fun q => q) dfAllNa = .ok (dfAllNa, pre)
        ∧ featsAllNa = fillna pre
        ∧ ∀ p ∈ pre,
            (∀ m, colMean p.2 = some m →
              fillnaCol p.2
                  = p.2.map (fun c => if c = Cell.na then Cell.num m else c)
                ∧ Cell.na ∉ fillnaCol p.2)
            ∧ (colMean p.2 = none → fillnaCol p.2 = p.2) :=
  ⟨rfl, preprocess_imputation (fun q => q) dfAllNa dfAllNa featsAllNa
    none rfl⟩

/-- C5 counterexample: on a table whose `amount` column is entirely
missing, the feature table returned by `preprocess_data` still contains
missing values (the all-missing columns have a `NaN` mean and `fillna`
leaves them unfilled). -/
theorem preprocess_imputation_counterexample :
    preprocess_data (fun q => q) dfAllNa = .ok (dfAllNa, featsAllNa, none)
      ∧ tableHasNa featsAllNa = true :=
  ⟨rfl, rfl⟩

/-- C7 (amended): `preprocess_data` mutates only the `timestamp` column of
the caller's dataframe (overwriting it in place with parsed datetime
values); for tables without a timestamp column the dataframe is returned
unchanged, and every other column keeps exactly the loaded values.
`generate_report` works on a copy (`df.copy()`), which the embedding
renders by returning the report table separately from the input. -/
theorem preprocess_mutates_only_timestamp (f : ℚ → ℚ)
    (df df1 feats : DataFrame) (y : Option (List Cell))
    (h : preprocess_data f df = .ok (df1, feats, y)) :
    (¬hasCol df "timestamp" → df1 = df)
    ∧ (∀ name, name ≠ "timestamp" → getCol? df1 name = getCol? df name) :=
  (preprocess_data_shape f df df1 feats y h).2

/-- Witness for C7 at a concrete timestamp-free table. -/
theorem preprocess_mutates_only_timestamp_witness :
    preprocess_data (fun q => q) dfAllNa = .ok (dfAllNa, featsAllNa, none)
    ∧ ((¬hasCol dfAllNa "timestamp" → dfAllNa = dfAllNa)
      ∧ (∀ name, name ≠ "timestamp" →
          getCol? dfAllNa name = getCol? dfAllNa name)) :=
  ⟨rfl, preprocess_mutates_only_timestamp (fun q => q) dfAllNa dfAllNa
    featsAllNa none rfl⟩

/-- C7 counterexample: on a table with a timestamp column the caller's
dataframe does not keep the values loaded from the CSV: after
`preprocess_data` the timestamp column holds parsed datetime values in
place of the raw ones. -/
theorem preprocess_mutation_counterexample :
    preprocess_data (fun q => q) dfTsIn = .ok (dfTsOut, featsTs, none)
      ∧ dfTsOut ≠ dfTsIn :=
  ⟨rfl, by decide⟩

/-- C6: on a table that has a numeric `amount` column and none of the
`timestamp`, `risk_level`, `transaction_type` columns, `preprocess_data`
does not raise and the feature table consists exactly of the
amount-derived features `amount`, `amount_log`, `amount_squared`. -/
theorem preprocess_amount_only (f : ℚ → ℚ) (df : DataFrame)
    (col : List Cell) (hamt : getCol? df "amount" = some col)
    (_hnum : ∀ c ∈ col, numOrNa c = true)
    (hts : ¬hasCol df "timestamp") (hrl : ¬hasCol df "risk_level")
    (htt : ¬hasCol df "transaction_type") :
    ∃ feats y, preprocess_data f df = .ok (df, feats, y)
      ∧ feats.map Prod.fst = ["amount", "amount_log", "amount_squared"] := by
  have hts0 : getCol? df "timestamp" = none := by
    unfold hasCol at hts
    simpa using hts
  have hrl0 : getCol? df "risk_level" = none := by
    unfold hasCol at hrl
    simpa using hrl
  have htt0 : getCol? df "transaction_type" = none := by
    unfold hasCol at htt
    simpa using htt
  have hfeats : buildFeatures f df
      = .ok (df, addDerived f [("amount", col)]) := by
    simp [buildFeatures, addRiskAndType, hamt, hts0, hrl0, htt0, setCol]
  have hder : (addDerived f [("amount", col)]).map Prod.fst
      = ["amount", "amount_log", "amount_squared"] := by
    unfold addDerived
    rw [if_pos (by simp)]
    simp [getCol?, setCol]
  refine ⟨fillna (addDerived f [("amount", col)]), getCol? df "is_fraud",
    ?_, ?_⟩
  · unfold preprocess_data
    rw [hfeats]
  · rw [fillna_fst, hder]

/-- Witness for C6 at a concrete table with a numeric amount column and no
categorical or timestamp columns. -/
theorem preprocess_amount_only_witness :
    (getCol? dfAllNa "amount" = some [Cell.na]
      ∧ (∀ c ∈ [Cell.na], numOrNa c = true)
      ∧ ¬hasCol dfAllNa "timestamp" ∧ ¬hasCol dfAllNa "risk_level"
      ∧ ¬hasCol dfAllNa "transaction_type")
    ∧ ∃ feats y, preprocess_data (fun q => q) dfAllNa = .ok (dfAllNa, feats, y)
        ∧ feats.map Prod.fst = ["amount", "amount_log", "amount_squared"] :=
  ⟨⟨rfl, by decide, by decide, by decide, by decide⟩,
   preprocess_amount_only (fun q => q) dfAllNa [Cell.na] rfl (by decide)
     (by decide) (by decide) (by decide)⟩

theorem DTree.proba_bounds (t : DTree) (x : List ℚ) (h : t.wfb = true) :
    0 ≤ t.proba x ∧ t.proba x ≤ 1 := by
  induction t with
  | leaf nF nT =>
      have hle : nF ≤ nT := by simpa [DTree.wfb] using h
      unfold DTree.proba
      split_ifs with h0
      · norm_num
      · have hTpos : (0 : ℚ) < (nT : ℚ) := by
          exact_mod_cast Nat.pos_of_ne_zero h0
        constructor
        · positivity
        · rw [div_le_one hTpos]
          exact_mod_cast hle
  | node j th l r ihl ihr =>
      rw [DTree.wfb, Bool.and_eq_true] at h
      unfold DTree.proba
      split_ifs
      · exact ihl h.1
      · exact ihr h.2

theorem qsum_bounds (l : List ℚ) (h : ∀ p ∈ l, 0 ≤ p ∧ p ≤ 1) :
    0 ≤ l.sum ∧ l.sum ≤ (l.length : ℚ) := by
  induction l with
  | nil => simp
  | cons a t ih =>
      have ha := h a (by simp)
      have ht := ih (fun p hp => h p (by simp [hp]))
      simp only [List.sum_cons, List.length_cons]
      push_cast
      constructor <;> linarith [ha.1, ha.2, ht.1, ht.2]

theorem forestProba_bounds (f : Forest) (x : List ℚ)
    (hwf : ∀ t ∈ f, t.wfb = true) :
    0 ≤ forestProba f x ∧ forestProba f x ≤ 1 := by
  unfold forestProba
  split_ifs with h0
  · norm_num
  · have hlen : (0 : ℚ) < (f.length : ℚ) := by
      exact_mod_cast Nat.pos_of_ne_zero h0
    have hb := qsum_bounds (f.map (fun t => t.proba x)) ?_
    · constructor
      · exact div_nonneg hb.1 (le_of_lt hlen)
      · rw [div_le_one hlen]
        have := hb.2
        simpa using this
    · intro p hp
      rcases List.mem_map.mp hp with ⟨t, ht, rfl⟩
      exact DTree.proba_bounds t x (hwf t ht)

/-- C8: training stores the fitted forest in the detector, and
`predict_fraud` on any feature rows then returns one predicted label and
one fraud probability per input row, with every probability in the closed
interval [0, 1].  The library fitting step is characterised by the
invariant that every fitted leaf's fraud count is at most its sample
count. -/
theorem train_then_predict_range
    (fit : List (List ℚ) → List Cell → Forest) (d : FraudDetector)
    (X : List (List ℚ)) (y : List Cell) (rows : List (List ℚ))
    (hwf : ∀ t ∈ fit X y, t.wfb = true) :
    ∃ preds probas,
      predict_fraud (train_model fit d X y) rows = .ok (preds, probas)
        ∧ preds.length = rows.length ∧ probas.length = rows.length
        ∧ ∀ p ∈ probas, 0 ≤ p ∧ p ≤ 1 := by
  refine ⟨_, _, rfl, by simp, by simp, ?_⟩
  intro p hp
  rcases List.mem_map.mp hp with ⟨r, hr, rfl⟩
  exact forestProba_bounds (fit X y) r hwf

/-- Witness for C9 at a concrete two-row batch whose probabilities are at
most 1. -/
theorem generate_report_tier_partition_witness :
    (numRows dfTwo ≠ 0 ∧ ∀ p ∈ [mkRat 9 10, mkRat 1 10], p ≤ 1)
    ∧ ((∀ p : ℚ, (riskTier p).isSome ↔ 0 < p ∧ p ≤ 1)
      ∧ (∃ dfr s,
          generate_report dfTwo [1, 0] [mkRat 9 10, mkRat 1 10] = .ok (dfr, s)
          ∧ s.high_risk_transactions + s.medium_risk_transactions
              + s.low_risk_transactions
            = [mkRat 9 10, mkRat 1 10].countP (fun p => decide (0 < p))
          ∧ s.high_risk_transactions + s.medium_risk_transactions
              + s.low_risk_transactions ≤ s.total_transactions)
      ∧ (∃ dfr0 s0,
          generate_report [("amount", [Cell.num 1])] [0] [0] = .ok (dfr0, s0)
          ∧ s0.high_risk_transactions + s0.medium_risk_transactions
              + s0.low_risk_transactions < s0.total_transactions)) :=
  ⟨⟨by decide, by decide⟩,
   generate_report_tier_partition dfTwo [1, 0] [mkRat 9 10, mkRat 1 10]
     rfl rfl (by decide) (by decide)⟩

/-- Witness for C8 with a concrete one-leaf forest fit and two feature
rows. -/
theorem train_then_predict_range_witness :
    (∀ t ∈ [DTree.leaf 1 2], DTree.wfb t = true)
    ∧ ∃ preds probas,
        predict_fraud
            (train_model (fun _ _ => [DTree.leaf 1 2]) {} [[1]] [Cell.num 1])
            [[1], [2]]
          = .ok (preds, probas)
        ∧ preds.length = ([[1], [2]] : List (List ℚ)).length
        ∧ probas.length = ([[1], [2]] : List (List ℚ)).length
        ∧ ∀ p ∈ probas, 0 ≤ p ∧ p ≤ 1 :=
  ⟨by decide,
   train_then_predict_range (fun _ _ => [DTree.leaf 1 2]) {} [[1]]
     [Cell.num 1] [[1], [2]] (by decide)⟩

end FraudDetection
